import Mathlib

set_option maxRecDepth 8192

/-!
Shallow embedding of `Tribler/community/multichain/conversion.py`.

Buffers (Python `str` byte strings) are modelled as `List Nat` with entries
below 256.  `struct.pack`/`unpack_from` with the fixed format strings of the
source are unfolded into explicit byte-level encoders and readers:

* formats starting with `!` (network mode) use big-endian integers and no
  padding: `signature_format`, `crawl_response_format`;
* formats without a prefix (`append_format` used by `calcsize`,
  `crawl_request_format`, `requester_half_format`) are native (`@`) mode;
  the reference platform is CPython on x86-64 Linux (LP64), so native
  integers are little-endian and items are aligned to their natural
  alignment, which inserts padding bytes.

The `s` conversion of `struct.pack` truncates an over-long string and pads a
short one with zero bytes, which `packBytes` reproduces.
-/

namespace MultiChain

/-- Big-endian bytes of `n`, exactly `w` bytes, most significant first. -/
def natToBytesBE : Nat → Nat → List Nat
  | 0, _ => []
  | w + 1, n => natToBytesBE w (n / 256) ++ [n % 256]

/-- Value of a big-endian byte list. -/
def bytesToNatBE (l : List Nat) : Nat :=
  l.foldl (fun a b => a * 256 + b) 0

/-- Little-endian bytes of `n`, exactly `w` bytes, least significant first. -/
def natToBytesLE : Nat → Nat → List Nat
  | 0, _ => []
  | w + 1, n => n % 256 :: natToBytesLE w (n / 256)

/-- Value of a little-endian byte list. -/
def bytesToNatLE (l : List Nat) : Nat :=
  l.foldr (fun b a => a * 256 + b) 0

/-- Two's-complement bytes (big-endian) of a signed 32-bit value, as
`struct.pack` with conversion `i` in network mode produces. -/
def intToBytesBE4 (x : Int) : List Nat :=
  natToBytesBE 4 (x % (2 ^ 32)).toNat

/-- Two's-complement bytes (little-endian) of a signed 32-bit value, as
`struct.pack` with conversion `i` in native mode produces on x86-64. -/
def intToBytesLE4 (x : Int) : List Nat :=
  natToBytesLE 4 (x % (2 ^ 32)).toNat

/-- Reinterpret an unsigned 32-bit value as signed (two's complement). -/
def sint32OfNat (n : Nat) : Int :=
  if n < 2 ^ 31 then (n : Int) else (n : Int) - 2 ^ 32

/-- The `s` conversion of `struct.pack`: exactly `w` bytes, truncating an
over-long input and padding a short one with zero bytes. -/
def packBytes (w : Nat) (s : List Nat) : List Nat :=
  s.take w ++ List.replicate (w - s.length) 0

@[simp] theorem natToBytesBE_length (w n : Nat) : (natToBytesBE w n).length = w := by
  induction w generalizing n with
  | zero => rfl
  | succ w ih => simp [natToBytesBE, ih]

@[simp] theorem natToBytesLE_length (w n : Nat) : (natToBytesLE w n).length = w := by
  induction w generalizing n with
  | zero => rfl
  | succ w ih => simp [natToBytesLE, ih]

@[simp] theorem intToBytesBE4_length (x : Int) : (intToBytesBE4 x).length = 4 := by
  simp [intToBytesBE4]

@[simp] theorem intToBytesLE4_length (x : Int) : (intToBytesLE4 x).length = 4 := by
  simp [intToBytesLE4]

@[simp] theorem packBytes_length (w : Nat) (s : List Nat) :
    (packBytes w s).length = w := by
  simp [packBytes]
  omega

theorem packBytes_eq_self (w : Nat) (s : List Nat) (h : s.length = w) :
    packBytes w s = s := by
  simp [packBytes, h, List.take_of_length_le (Nat.le_of_eq h)]

theorem bytesToNatBE_append_singleton (l : List Nat) (b : Nat) :
    bytesToNatBE (l ++ [b]) = bytesToNatBE l * 256 + b := by
  simp [bytesToNatBE, List.foldl_append]

theorem bytesToNatBE_natToBytesBE (w n : Nat) (h : n < 256 ^ w) :
    bytesToNatBE (natToBytesBE w n) = n := by
  induction w generalizing n with
  | zero =>
      simp [natToBytesBE, bytesToNatBE]
      omega
  | succ w ih =>
      have hdiv : n / 256 < 256 ^ w := by
        rw [Nat.div_lt_iff_lt_mul (by norm_num)]
        calc n < 256 ^ (w + 1) := h
          _ = 256 ^ w * 256 := by ring
      rw [natToBytesBE, bytesToNatBE_append_singleton, ih _ hdiv]
      omega

theorem bytesToNatLE_natToBytesLE (w n : Nat) (h : n < 256 ^ w) :
    bytesToNatLE (natToBytesLE w n) = n := by
  induction w generalizing n with
  | zero =>
      simp [natToBytesLE, bytesToNatLE]
      omega
  | succ w ih =>
      have hdiv : n / 256 < 256 ^ w := by
        rw [Nat.div_lt_iff_lt_mul (by norm_num)]
        calc n < 256 ^ (w + 1) := h
          _ = 256 ^ w * 256 := by ring
      rw [natToBytesLE]
      show (natToBytesLE w (n / 256)).foldr (fun b a => a * 256 + b) 0 * 256 + n % 256 = n
      have := ih _ hdiv
      rw [bytesToNatLE] at this
      rw [this]
      omega

theorem emod_toNat_lt (x : Int) : (x % (2 ^ 32)).toNat < 2 ^ 32 := by
  have h1 : 0 ≤ x % (2 ^ 32) := Int.emod_nonneg x (by norm_num)
  have h2 : x % (2 ^ 32) < 2 ^ 32 := Int.emod_lt_of_pos x (by norm_num)
  omega

theorem sint32_roundtrip (x : Int) (hlo : -(2 ^ 31) ≤ x) (hhi : x < 2 ^ 31) :
    sint32OfNat (bytesToNatBE (intToBytesBE4 x)) = x := by
  rw [intToBytesBE4, bytesToNatBE_natToBytesBE 4 _ (by exact_mod_cast emod_toNat_lt x)]
  unfold sint32OfNat
  have h1 : 0 ≤ x % (2 ^ 32) := Int.emod_nonneg x (by norm_num)
  have h2 : x % (2 ^ 32) < 2 ^ 32 := Int.emod_lt_of_pos x (by norm_num)
  have h3 : x % (2 ^ 32) = x ∨ x % (2 ^ 32) = x + 2 ^ 32 := by omega
  rcases h3 with h | h <;> · split <;> omega

theorem sint32_roundtrip_le (x : Int) (hlo : -(2 ^ 31) ≤ x) (hhi : x < 2 ^ 31) :
    sint32OfNat (bytesToNatLE (intToBytesLE4 x)) = x := by
  rw [intToBytesLE4, bytesToNatLE_natToBytesLE 4 _ (by exact_mod_cast emod_toNat_lt x)]
  unfold sint32OfNat
  have h1 : 0 ≤ x % (2 ^ 32) := Int.emod_nonneg x (by norm_num)
  have h2 : x % (2 ^ 32) < 2 ^ 32 := Int.emod_lt_of_pos x (by norm_num)
  have h3 : x % (2 ^ 32) = x ∨ x % (2 ^ 32) = x + 2 ^ 32 := by omega
  rcases h3 with h | h <;> · split <;> omega

/-! Layout schema: the format strings of `conversion.py`, modelled as item
lists, with `struct.calcsize` for both network (`!`) and native (`@`) modes. -/

/-- One conversion item of a `struct` format string. -/
inductive FmtItem where
  | u32
  | u64
  | i32
  | str (n : Nat)
deriving DecidableEq

/-- Byte width of an item (standard sizes, equal to native sizes on LP64). -/
def itemSize : FmtItem → Nat
  | .u32 => 4
  | .u64 => 8
  | .i32 => 4
  | .str n => n

/-- Native (`@` mode) alignment of an item on the reference x86-64 platform. -/
def itemAlign : FmtItem → Nat
  | .u32 => 4
  | .u64 => 8
  | .i32 => 4
  | .str _ => 1

/-- Round `o` up to a multiple of `a`. -/
def alignUp (o a : Nat) : Nat := (o + a - 1) / a * a

/-- `struct.calcsize` in network (`!`) mode: sizes only, no padding. -/
def calcsizeNet (l : List FmtItem) : Nat :=
  l.foldl (fun o it => o + itemSize it) 0

/-- `struct.calcsize` in native (`@`) mode: each item is aligned to its
natural alignment before being placed. -/
def calcsizeNative (l : List FmtItem) : Nat :=
  l.foldl (fun o it => alignUp o (itemAlign it) + itemSize it) 0

def HASH_LENGTH : Nat := 32
def SIG_LENGTH : Nat := 64
def PK_LENGTH : Nat := 74

/-- `EMPTY_HASH = '1' * HASH_LENGTH`: 32 bytes of 0x31 (ASCII for the digit one). -/
def EMPTY_HASH : List Nat := List.replicate HASH_LENGTH 49

/-- `GENESIS_ID = '0' * HASH_LENGTH`: 32 bytes of 0x30 (ASCII for the digit zero). -/
def GENESIS_ID : List Nat := List.replicate HASH_LENGTH 48

/-- `append_format = 'Q Q i 32s'` (TotalUp TotalDown Sequence_number previous_hash). -/
def append_format : List FmtItem := [.u64, .u64, .i32, .str HASH_LENGTH]

/-- `common_data_format = 'I I'` (Up, Down). -/
def common_data_format : List FmtItem := [.u32, .u32]

/-- `signature_format`: `!` then common data and both append blocks. -/
def signature_format : List FmtItem :=
  common_data_format ++ append_format ++ append_format

/-- `requester_half_format`: two public keys, common data, the requester
append block and the requester signature; no `!`, hence native mode. -/
def requester_half_format : List FmtItem :=
  [.str PK_LENGTH, .str PK_LENGTH] ++ common_data_format ++ append_format
    ++ [.str SIG_LENGTH]

/-- `signature_size = calcsize(signature_format)` (network mode). -/
def signature_size : Nat := calcsizeNet signature_format

/-- `append_size = calcsize(append_format)`; native mode, but `Q Q i 32s`
needs no padding, so the value agrees with the packed size. -/
def append_size : Nat := calcsizeNative append_format

/-- `crawl_request_format = 'i'` (native mode). -/
def crawl_request_format : List FmtItem := [.i32]

def crawl_request_size : Nat := calcsizeNative crawl_request_format

/-- `authentication_format`: a public key then a signature (`74s 64s`). -/
def authentication_format : List FmtItem := [.str PK_LENGTH, .str SIG_LENGTH]

/-- `crawl_response_format = signature_format + authentication_format * 2`;
it inherits the leading `!` of `signature_format`, hence network mode. -/
def crawl_response_format : List FmtItem :=
  signature_format ++ authentication_format ++ authentication_format

def crawl_response_size : Nat := calcsizeNet crawl_response_format

/-- Packed size of `requester_half_format` in native mode (what
`pack(requester_half_format, ...)` produces on the reference platform). -/
def requester_half_size : Nat := calcsizeNative requester_half_format

/-! Payload records.  The dispersy payload `implement(*values)` pattern is
modelled as typed records whose field order matches the positional values. -/

/-- Payload of the SIGNATURE message. -/
structure SignaturePayload where
  up : Nat
  down : Nat
  total_up_requester : Nat
  total_down_requester : Nat
  sequence_number_requester : Int
  previous_hash_requester : List Nat
  total_up_responder : Nat
  total_down_responder : Nat
  sequence_number_responder : Int
  previous_hash_responder : List Nat
deriving DecidableEq

/-- Payload of the CRAWL_REQUEST message. -/
structure CrawlRequestPayload where
  requested_sequence_number : Int
deriving DecidableEq

/-- Payload of the CRAWL_RESPONSE message: the signature fields plus both
public keys and both signatures. -/
structure CrawlResponsePayload where
  up : Nat
  down : Nat
  total_up_requester : Nat
  total_down_requester : Nat
  sequence_number_requester : Int
  previous_hash_requester : List Nat
  total_up_responder : Nat
  total_down_responder : Nat
  sequence_number_responder : Int
  previous_hash_responder : List Nat
  public_key_requester : List Nat
  signature_requester : List Nat
  public_key_responder : List Nat
  signature_responder : List Nat
deriving DecidableEq

/-- Payload of the CRAWL_RESUME message: no fields. -/
structure CrawlResumePayload where
deriving DecidableEq

/-- A byte list is a well-formed byte string of width `w`. -/
def WFBytes (w : Nat) (s : List Nat) : Prop :=
  s.length = w ∧ ∀ b ∈ s, b < 256

instance (w : Nat) (s : List Nat) : Decidable (WFBytes w s) := by
  unfold WFBytes; infer_instance

/-- Well-formed signed 32-bit value. -/
def WFi32 (x : Int) : Prop := -(2 ^ 31) ≤ x ∧ x < 2 ^ 31

instance (x : Int) : Decidable (WFi32 x) := by
  unfold WFi32; infer_instance

/-- Well-formedness of a SIGNATURE payload: every field fits its fixed-width
slot of the wire format. -/
def WFSignaturePayload (p : SignaturePayload) : Prop :=
  p.up < 2 ^ 32 ∧ p.down < 2 ^ 32 ∧
  p.total_up_requester < 2 ^ 64 ∧ p.total_down_requester < 2 ^ 64 ∧
  WFi32 p.sequence_number_requester ∧
  WFBytes HASH_LENGTH p.previous_hash_requester ∧
  p.total_up_responder < 2 ^ 64 ∧ p.total_down_responder < 2 ^ 64 ∧
  WFi32 p.sequence_number_responder ∧
  WFBytes HASH_LENGTH p.previous_hash_responder

instance (p : SignaturePayload) : Decidable (WFSignaturePayload p) := by
  unfold WFSignaturePayload; infer_instance

/-- Well-formedness of a CRAWL_REQUEST payload. -/
def WFCrawlRequestPayload (p : CrawlRequestPayload) : Prop :=
  WFi32 p.requested_sequence_number

instance (p : CrawlRequestPayload) : Decidable (WFCrawlRequestPayload p) := by
  unfold WFCrawlRequestPayload; infer_instance

/-- Well-formedness of a CRAWL_RESPONSE payload. -/
def WFCrawlResponsePayload (p : CrawlResponsePayload) : Prop :=
  p.up < 2 ^ 32 ∧ p.down < 2 ^ 32 ∧
  p.total_up_requester < 2 ^ 64 ∧ p.total_down_requester < 2 ^ 64 ∧
  WFi32 p.sequence_number_requester ∧
  WFBytes HASH_LENGTH p.previous_hash_requester ∧
  p.total_up_responder < 2 ^ 64 ∧ p.total_down_responder < 2 ^ 64 ∧
  WFi32 p.sequence_number_responder ∧
  WFBytes HASH_LENGTH p.previous_hash_responder ∧
  WFBytes PK_LENGTH p.public_key_requester ∧
  WFBytes SIG_LENGTH p.signature_requester ∧
  WFBytes PK_LENGTH p.public_key_responder ∧
  WFBytes SIG_LENGTH p.signature_responder

instance (p : CrawlResponsePayload) : Decidable (WFCrawlResponsePayload p) := by
  unfold WFCrawlResponsePayload; infer_instance

/-! Readers: `unpack_from(format, data, offset)` reads each field at a fixed
offset from `offset`; one reader per conversion kind. -/

/-- Read an unsigned 32-bit big-endian integer at offset `o`. -/
def readU32BE (f : List Nat) (o : Nat) : Nat := bytesToNatBE ((f.drop o).take 4)

/-- Read an unsigned 64-bit big-endian integer at offset `o`. -/
def readU64BE (f : List Nat) (o : Nat) : Nat := bytesToNatBE ((f.drop o).take 8)

/-- Read a signed 32-bit big-endian integer at offset `o`. -/
def readI32BE (f : List Nat) (o : Nat) : Int :=
  sint32OfNat (bytesToNatBE ((f.drop o).take 4))

/-- Read a signed 32-bit little-endian (native) integer at offset `o`. -/
def readI32LE (f : List Nat) (o : Nat) : Int :=
  sint32OfNat (bytesToNatLE ((f.drop o).take 4))

/-- Read a `w`-byte string field at offset `o`. -/
def readStr (w : Nat) (f : List Nat) (o : Nat) : List Nat := (f.drop o).take w

/-! The codec: `_encode_*` / `_decode_*` of `MultiChainConversion`.  A raised
`DropPacket` is modelled as `none`. -/

/-- `_encode_signature`: `pack(signature_format, *(payload.up, ...))`. -/
def encode_signature (p : SignaturePayload) : List Nat :=
  natToBytesBE 4 p.up ++ natToBytesBE 4 p.down ++
  natToBytesBE 8 p.total_up_requester ++ natToBytesBE 8 p.total_down_requester ++
  intToBytesBE4 p.sequence_number_requester ++
  packBytes HASH_LENGTH p.previous_hash_requester ++
  natToBytesBE 8 p.total_up_responder ++ natToBytesBE 8 p.total_down_responder ++
  intToBytesBE4 p.sequence_number_responder ++
  packBytes HASH_LENGTH p.previous_hash_responder

/-- `_decode_signature`: length check, then `unpack_from(signature_format,
data, offset)` and `offset += signature_size`. -/
def decode_signature (data : List Nat) (offset : Nat) :
    Option (Nat × SignaturePayload) :=
  if data.length < offset + signature_size then none
  else some (offset + signature_size,
    { up := readU32BE data offset
      down := readU32BE data (offset + 4)
      total_up_requester := readU64BE data (offset + 8)
      total_down_requester := readU64BE data (offset + 16)
      sequence_number_requester := readI32BE data (offset + 24)
      previous_hash_requester := readStr HASH_LENGTH data (offset + 28)
      total_up_responder := readU64BE data (offset + 60)
      total_down_responder := readU64BE data (offset + 68)
      sequence_number_responder := readI32BE data (offset + 76)
      previous_hash_responder := readStr HASH_LENGTH data (offset + 80) })

/-- `_encode_crawl_request`: `pack('i', requested_sequence_number)`; the
format has no `!`, so the integer is native little-endian. -/
def encode_crawl_request (p : CrawlRequestPayload) : List Nat :=
  intToBytesLE4 p.requested_sequence_number

/-- `_decode_crawl_request`. -/
def decode_crawl_request (data : List Nat) (offset : Nat) :
    Option (Nat × CrawlRequestPayload) :=
  if data.length < offset + crawl_request_size then none
  else some (offset + crawl_request_size,
    { requested_sequence_number := readI32LE data offset })

/-- `encode_block_crawl`: `pack(crawl_response_format, *(payload.up, ...,
payload.public_key_requester, payload.signature_requester, ...))`. -/
def encode_block_crawl (p : CrawlResponsePayload) : List Nat :=
  natToBytesBE 4 p.up ++ natToBytesBE 4 p.down ++
  natToBytesBE 8 p.total_up_requester ++ natToBytesBE 8 p.total_down_requester ++
  intToBytesBE4 p.sequence_number_requester ++
  packBytes HASH_LENGTH p.previous_hash_requester ++
  natToBytesBE 8 p.total_up_responder ++ natToBytesBE 8 p.total_down_responder ++
  intToBytesBE4 p.sequence_number_responder ++
  packBytes HASH_LENGTH p.previous_hash_responder ++
  packBytes PK_LENGTH p.public_key_requester ++
  packBytes SIG_LENGTH p.signature_requester ++
  packBytes PK_LENGTH p.public_key_responder ++
  packBytes SIG_LENGTH p.signature_responder

/-- `_encode_crawl_response`: delegates to `encode_block_crawl`. -/
def encode_crawl_response (p : CrawlResponsePayload) : List Nat :=
  encode_block_crawl p

/-- `_decode_crawl_response`. -/
def decode_crawl_response (data : List Nat) (offset : Nat) :
    Option (Nat × CrawlResponsePayload) :=
  if data.length < offset + crawl_response_size then none
  else some (offset + crawl_response_size,
    { up := readU32BE data offset
      down := readU32BE data (offset + 4)
      total_up_requester := readU64BE data (offset + 8)
      total_down_requester := readU64BE data (offset + 16)
      sequence_number_requester := readI32BE data (offset + 24)
      previous_hash_requester := readStr HASH_LENGTH data (offset + 28)
      total_up_responder := readU64BE data (offset + 60)
      total_down_responder := readU64BE data (offset + 68)
      sequence_number_responder := readI32BE data (offset + 76)
      previous_hash_responder := readStr HASH_LENGTH data (offset + 80)
      public_key_requester := readStr PK_LENGTH data (offset + 112)
      signature_requester := readStr SIG_LENGTH data (offset + 186)
      public_key_responder := readStr PK_LENGTH data (offset + 250)
      signature_responder := readStr SIG_LENGTH data (offset + 324) })

/-- `_encode_crawl_resume`: returns the empty string. -/
def encode_crawl_resume (_ : CrawlResumePayload) : List Nat := []

/-- `_decode_crawl_resume`: no length check; unconditionally returns the
unchanged offset and an empty payload. -/
def decode_crawl_resume (_ : List Nat) (offset : Nat) :
    Option (Nat × CrawlResumePayload) :=
  some (offset, {})

/-- `split_function`: `(payload[:-append_size], payload)`.  Python's negative
slice clamps at zero, which `List.take (length - append_size)` reproduces. -/
def split_function (payload : List Nat) : List Nat × List Nat :=
  (payload.take (payload.length - append_size), payload)

/-- `encode_block(payload, requester, responder)`.  The dispersy arguments
`requester`/`responder` are pairs whose first component is the signature
(`requester[0]`) and whose second is the member's public key
(`requester[1].public_key`).  The two `assert len(... ) == PK_LENGTH`
statements are modelled as a guard returning `none` (a raised
`AssertionError`) when violated. -/
def encode_block (p : SignaturePayload)
    (requester responder : List Nat × List Nat) : Option (List Nat) :=
  if requester.2.length = PK_LENGTH ∧ responder.2.length = PK_LENGTH then
    some (natToBytesBE 4 p.up ++ natToBytesBE 4 p.down ++
      natToBytesBE 8 p.total_up_requester ++ natToBytesBE 8 p.total_down_requester ++
      intToBytesBE4 p.sequence_number_requester ++
      packBytes HASH_LENGTH p.previous_hash_requester ++
      natToBytesBE 8 p.total_up_responder ++ natToBytesBE 8 p.total_down_responder ++
      intToBytesBE4 p.sequence_number_responder ++
      packBytes HASH_LENGTH p.previous_hash_responder ++
      packBytes PK_LENGTH requester.2 ++ packBytes SIG_LENGTH requester.1 ++
      packBytes PK_LENGTH responder.2 ++ packBytes SIG_LENGTH responder.1)
  else none

/-- `encode_block_requester_half`: `pack(requester_half_format, ...)`.  The
format has no `!`, so on the reference LP64 platform the integers are
little-endian and `pack` inserts four zero padding bytes to align the first
`Q` field (offset 156 is rounded up to 160). -/
def encode_block_requester_half (p : SignaturePayload)
    (public_key_requester public_key_responder signature_requester : List Nat) :
    List Nat :=
  packBytes PK_LENGTH public_key_requester ++
  packBytes PK_LENGTH public_key_responder ++
  natToBytesLE 4 p.up ++ natToBytesLE 4 p.down ++
  List.replicate 4 0 ++
  natToBytesLE 8 p.total_up_requester ++ natToBytesLE 8 p.total_down_requester ++
  intToBytesLE4 p.sequence_number_requester ++
  packBytes HASH_LENGTH p.previous_hash_requester ++
  packBytes SIG_LENGTH signature_requester

/-! Computed sizes of the four formats. -/

theorem signature_size_eq : signature_size = 112 := by rfl

theorem append_size_eq : append_size = 52 := by rfl

theorem crawl_request_size_eq : crawl_request_size = 4 := by rfl

theorem crawl_response_size_eq : crawl_response_size = 388 := by rfl

theorem requester_half_size_eq : requester_half_size = 276 := by rfl

theorem packBytes_packBytes (w : Nat) (s : List Nat) :
    packBytes w (packBytes w s) = packBytes w s :=
  packBytes_eq_self w _ (packBytes_length w s)

/-- Round-trip of the SIGNATURE codec. -/
theorem decode_encode_signature (p : SignaturePayload) (h : WFSignaturePayload p) :
    decode_signature (encode_signature p) 0 = some (signature_size, p) := by
  obtain ⟨hup, hdn, htur, htdr, hsnr, hphr, htuo, htdo, hsno, hpho⟩ := h
  have hup' : p.up < 256 ^ 4 := by simpa using hup
  have hdn' : p.down < 256 ^ 4 := by simpa using hdn
  have htur' : p.total_up_requester < 256 ^ 8 := by simpa using htur
  have htdr' : p.total_down_requester < 256 ^ 8 := by simpa using htdr
  have htuo' : p.total_up_responder < 256 ^ 8 := by simpa using htuo
  have htdo' : p.total_down_responder < 256 ^ 8 := by simpa using htdo
  have hlen : (encode_signature p).length = 112 := by
    simp [encode_signature, HASH_LENGTH]
  rw [decode_signature, if_neg (by simp [hlen, signature_size_eq])]
  simp only [readU32BE, readU64BE, readI32BE, readStr, encode_signature, signature_size_eq,
    Nat.zero_add, HASH_LENGTH, List.drop_append_eq_append_drop, List.take_append_eq_append_take,
    List.drop_of_length_le, List.take_of_length_le, natToBytesBE_length, intToBytesBE4_length,
    packBytes_length, List.length_nil, List.length_append, Nat.reduceAdd, List.nil_append,
    List.append_nil, List.drop_zero, List.take_zero, Nat.reducePow, Nat.reduceSub,
    Nat.reduceLeDiff]
  rw [bytesToNatBE_natToBytesBE 4 p.up hup', bytesToNatBE_natToBytesBE 4 p.down hdn',
      bytesToNatBE_natToBytesBE 8 _ htur', bytesToNatBE_natToBytesBE 8 _ htdr',
      bytesToNatBE_natToBytesBE 8 _ htuo', bytesToNatBE_natToBytesBE 8 _ htdo',
      sint32_roundtrip _ hsnr.1 hsnr.2, sint32_roundtrip _ hsno.1 hsno.2,
      packBytes_eq_self 32 _ hphr.1, packBytes_eq_self 32 _ hpho.1]

/-- Round-trip of the CRAWL_REQUEST codec. -/
theorem decode_encode_crawl_request (p : CrawlRequestPayload)
    (h : WFCrawlRequestPayload p) :
    decode_crawl_request (encode_crawl_request p) 0 = some (crawl_request_size, p) := by
  have h' : WFi32 p.requested_sequence_number := h
  rw [decode_crawl_request, if_neg (by simp [encode_crawl_request, crawl_request_size_eq])]
  simp only [readI32LE, encode_crawl_request, Nat.zero_add, List.drop_zero]
  rw [List.take_of_length_le (by simp), sint32_roundtrip_le _ h'.1 h'.2]

/-- Round-trip of the CRAWL_RESPONSE codec. -/
theorem decode_encode_crawl_response (p : CrawlResponsePayload)
    (h : WFCrawlResponsePayload p) :
    decode_crawl_response (encode_crawl_response p) 0 = some (crawl_response_size, p) := by
  obtain ⟨hup, hdn, htur, htdr, hsnr, hphr, htuo, htdo, hsno, hpho, hpkr, hsgr, hpko, hsgo⟩ := h
  have hup' : p.up < 256 ^ 4 := by simpa using hup
  have hdn' : p.down < 256 ^ 4 := by simpa using hdn
  have htur' : p.total_up_requester < 256 ^ 8 := by simpa using htur
  have htdr' : p.total_down_requester < 256 ^ 8 := by simpa using htdr
  have htuo' : p.total_up_responder < 256 ^ 8 := by simpa using htuo
  have htdo' : p.total_down_responder < 256 ^ 8 := by simpa using htdo
  have hlen : (encode_crawl_response p).length = 388 := by
    simp [encode_crawl_response, encode_block_crawl, HASH_LENGTH, PK_LENGTH, SIG_LENGTH]
  rw [decode_crawl_response, if_neg (by simp [hlen, crawl_response_size_eq])]
  simp only [readU32BE, readU64BE, readI32BE, readStr, encode_crawl_response,
    encode_block_crawl, crawl_response_size_eq, Nat.zero_add, HASH_LENGTH, PK_LENGTH,
    SIG_LENGTH, List.drop_append_eq_append_drop, List.take_append_eq_append_take,
    List.drop_of_length_le, List.take_of_length_le, natToBytesBE_length, intToBytesBE4_length,
    packBytes_length, List.length_nil, List.length_append, Nat.reduceAdd, List.nil_append,
    List.append_nil, List.drop_zero, List.take_zero, Nat.reducePow, Nat.reduceSub,
    Nat.reduceLeDiff]
  rw [bytesToNatBE_natToBytesBE 4 p.up hup', bytesToNatBE_natToBytesBE 4 p.down hdn',
      bytesToNatBE_natToBytesBE 8 _ htur', bytesToNatBE_natToBytesBE 8 _ htdr',
      bytesToNatBE_natToBytesBE 8 _ htuo', bytesToNatBE_natToBytesBE 8 _ htdo',
      sint32_roundtrip _ hsnr.1 hsnr.2, sint32_roundtrip _ hsno.1 hsno.2,
      packBytes_eq_self 32 _ hphr.1, packBytes_eq_self 32 _ hpho.1,
      packBytes_eq_self 74 _ hpkr.1, packBytes_eq_self 64 _ hsgr.1,
      packBytes_eq_self 74 _ hpko.1, packBytes_eq_self 64 _ hsgo.1]

/-- Projection of the common signature fields out of a crawl-response record,
matching the shared layout of `signature_format`. -/
def crawlResponseToSignature (p : CrawlResponsePayload) : SignaturePayload :=
  { up := p.up
    down := p.down
    total_up_requester := p.total_up_requester
    total_down_requester := p.total_down_requester
    sequence_number_requester := p.sequence_number_requester
    previous_hash_requester := p.previous_hash_requester
    total_up_responder := p.total_up_responder
    total_down_responder := p.total_down_responder
    sequence_number_responder := p.sequence_number_responder
    previous_hash_responder := p.previous_hash_responder }

/-- When both public keys pass the assertions, `encode_block` packs exactly
the bytes `encode_block_crawl` packs for the same field values. -/
theorem encode_block_eq_crawl (p : CrawlResponsePayload)
    (h1 : p.public_key_requester.length = PK_LENGTH)
    (h2 : p.public_key_responder.length = PK_LENGTH) :
    encode_block (crawlResponseToSignature p)
      (p.signature_requester, p.public_key_requester)
      (p.signature_responder, p.public_key_responder)
      = some (encode_block_crawl p) := by
  rw [encode_block, if_pos ⟨h1, h2⟩]
  rfl

/-! Concrete example records used by the witnesses and counterexamples. -/

/-- Example of a well-formed SIGNATURE payload (spec scenario 1). -/
def spEx : SignaturePayload :=
  { up := 5
    down := 10
    total_up_requester := 100
    total_down_requester := 50
    sequence_number_requester := 3
    previous_hash_requester := GENESIS_ID
    total_up_responder := 100
    total_down_responder := 50
    sequence_number_responder := 7
    previous_hash_responder := GENESIS_ID }

/-- Example of a well-formed CRAWL_REQUEST payload. -/
def rqEx : CrawlRequestPayload := { requested_sequence_number := -1 }

def pkReqEx : List Nat := List.replicate PK_LENGTH 11

def pkRespEx : List Nat := List.replicate PK_LENGTH 12

def sigReqEx : List Nat := List.replicate SIG_LENGTH 21

def sigRespEx : List Nat := List.replicate SIG_LENGTH 22

/-- Example of a well-formed CRAWL_RESPONSE payload, carrying the same
signature fields as `spEx`. -/
def crEx : CrawlResponsePayload :=
  { up := 5
    down := 10
    total_up_requester := 100
    total_down_requester := 50
    sequence_number_requester := 3
    previous_hash_requester := GENESIS_ID
    total_up_responder := 100
    total_down_responder := 50
    sequence_number_responder := 7
    previous_hash_responder := GENESIS_ID
    public_key_requester := pkReqEx
    signature_requester := sigReqEx
    public_key_responder := pkRespEx
    signature_responder := sigRespEx }

def ruEx : CrawlResumePayload := {}

/-- C1: for every message kind (Signature, CrawlRequest, CrawlResponse,
CrawlResume) and every well-formed record, decoding the encoding at offset 0
succeeds and returns exactly the kind's fixed size and the original record. -/
theorem claim_C1_roundtrip (sp : SignaturePayload) (hsp : WFSignaturePayload sp)
    (rq : CrawlRequestPayload) (hrq : WFCrawlRequestPayload rq)
    (cr : CrawlResponsePayload) (hcr : WFCrawlResponsePayload cr)
    (ru : CrawlResumePayload) :
    decode_signature (encode_signature sp) 0 = some (signature_size, sp) ∧
    decode_crawl_request (encode_crawl_request rq) 0 = some (crawl_request_size, rq) ∧
    decode_crawl_response (encode_crawl_response cr) 0 = some (crawl_response_size, cr) ∧
    decode_crawl_resume (encode_crawl_resume ru) 0 = some (0, ru) :=
  ⟨decode_encode_signature sp hsp, decode_encode_crawl_request rq hrq,
   decode_encode_crawl_response cr hcr, by cases ru; rfl⟩

/-- Witness for C1 at the concrete records of spec scenario 1. -/
theorem claim_C1_witness :
    WFSignaturePayload spEx ∧ WFCrawlRequestPayload rqEx ∧ WFCrawlResponsePayload crEx ∧
    (decode_signature (encode_signature spEx) 0 = some (signature_size, spEx) ∧
     decode_crawl_request (encode_crawl_request rqEx) 0 = some (crawl_request_size, rqEx) ∧
     decode_crawl_response (encode_crawl_response crEx) 0 = some (crawl_response_size, crEx) ∧
     decode_crawl_resume (encode_crawl_resume ruEx) 0 = some (0, ruEx)) :=
  ⟨by decide, by decide, by decide,
   claim_C1_roundtrip spEx (by decide) rqEx (by decide) crEx (by decide) ruEx⟩

/-- C2 counterexample: the CrawlResume decoder never fails, so a kind exists
(CrawlResume, fixed size 0) with a buffer and offset where the remaining
length is below the size and yet decoding succeeds. -/
theorem claim_C2_counterexample :
    ((([] : List Nat).length : Int) - 1 < 0) ∧
    decode_crawl_resume ([] : List Nat) 1 = some (1, {}) :=
  ⟨by decide, rfl⟩

/-- C2 amended: for each of the three kinds with a positive fixed size,
whenever the remaining buffer length is below that size the decoder fails
(returns none, modelling a raised DropPacket) and yields no record; the
CrawlResume decoder never fails. -/
theorem claim_C2_amended (b : List Nat) (o : Nat) :
    ((b.length : Int) - (o : Int) < (signature_size : Int) →
      decode_signature b o = none) ∧
    ((b.length : Int) - (o : Int) < (crawl_request_size : Int) →
      decode_crawl_request b o = none) ∧
    ((b.length : Int) - (o : Int) < (crawl_response_size : Int) →
      decode_crawl_response b o = none) := by
  refine ⟨fun h => ?_, fun h => ?_, fun h => ?_⟩
  · rw [decode_signature, if_pos (by omega)]
  · rw [decode_crawl_request, if_pos (by omega)]
  · rw [decode_crawl_response, if_pos (by omega)]

/-- Witness for C2 at a 387-byte buffer decoded as CrawlResponse. -/
theorem claim_C2_witness :
    (((List.replicate 387 (0 : Nat)).length : Int) - (0 : Int)
        < (crawl_response_size : Int)) ∧
    decode_crawl_response (List.replicate 387 0) 0 = none :=
  ⟨by decide, (claim_C2_amended (List.replicate 387 0) 0).2.2 (by decide)⟩

/-- C3 counterexample: given equivalent field values (the fields of `crEx`
restricted to what `encode_block_requester_half` serializes), the
requester-half assembler and the crawl assembler do not produce byte-identical
output: the requester half puts the public keys first, covers only the
requester side, and has a different length. -/
theorem claim_C3_counterexample :
    encode_block_requester_half spEx pkReqEx pkRespEx sigReqEx
      ≠ encode_block_crawl crEx := by
  decide

/-- C3 amended: `encode_block` and `encode_block_crawl` share the
CrawlResponse field order and produce byte-identical output for equivalent
fields, but `encode_block_requester_half` uses a different layout
(`requester_half_format`: public keys first, requester side only, native
byte order) whose packed size 276 differs from the CrawlResponse size 388. -/
theorem claim_C3_amended (p : CrawlResponsePayload)
    (h1 : p.public_key_requester.length = PK_LENGTH)
    (h2 : p.public_key_responder.length = PK_LENGTH)
    (q : SignaturePayload) (pk1 pk2 s : List Nat) :
    encode_block (crawlResponseToSignature p)
      (p.signature_requester, p.public_key_requester)
      (p.signature_responder, p.public_key_responder) = some (encode_block_crawl p) ∧
    (encode_block_requester_half q pk1 pk2 s).length = requester_half_size ∧
    requester_half_size ≠ crawl_response_size := by
  refine ⟨encode_block_eq_crawl p h1 h2, ?_, by decide⟩
  simp [encode_block_requester_half, requester_half_size_eq, HASH_LENGTH, PK_LENGTH,
    SIG_LENGTH]

/-- Witness for C3 at the concrete records. -/
theorem claim_C3_witness :
    crEx.public_key_requester.length = PK_LENGTH ∧
    crEx.public_key_responder.length = PK_LENGTH ∧
    (encode_block (crawlResponseToSignature crEx)
       (crEx.signature_requester, crEx.public_key_requester)
       (crEx.signature_responder, crEx.public_key_responder)
         = some (encode_block_crawl crEx) ∧
     (encode_block_requester_half spEx pkReqEx pkRespEx sigReqEx).length
         = requester_half_size ∧
     requester_half_size ≠ crawl_response_size) :=
  ⟨by decide, by decide,
   claim_C3_amended crEx (by decide) (by decide) spEx pkReqEx pkRespEx sigReqEx⟩

/-- C4: given the same signature fields, keys and signatures, `encode_block`
(keys and signatures from two separate identity pairs) and
`encode_block_crawl` (from the record's own attributes) produce byte-identical
output. -/
theorem claim_C4_equivalence (p : CrawlResponsePayload)
    (h1 : p.public_key_requester.length = PK_LENGTH)
    (h2 : p.public_key_responder.length = PK_LENGTH) :
    encode_block (crawlResponseToSignature p)
      (p.signature_requester, p.public_key_requester)
      (p.signature_responder, p.public_key_responder)
      = some (encode_block_crawl p) :=
  encode_block_eq_crawl p h1 h2

/-- Witness for C4 at the concrete record `crEx`. -/
theorem claim_C4_witness :
    crEx.public_key_requester.length = PK_LENGTH ∧
    crEx.public_key_responder.length = PK_LENGTH ∧
    encode_block (crawlResponseToSignature crEx)
      (crEx.signature_requester, crEx.public_key_requester)
      (crEx.signature_responder, crEx.public_key_responder)
      = some (encode_block_crawl crEx) :=
  ⟨by decide, by decide, claim_C4_equivalence crEx (by decide) (by decide)⟩

/-- C5: the encoders are total functions and always produce exactly the
kind's fixed size: 112 bytes for Signature, 4 for CrawlRequest, 388 for
CrawlResponse and 0 for CrawlResume. -/
theorem claim_C5_sizes (sp : SignaturePayload) (rq : CrawlRequestPayload)
    (cr : CrawlResponsePayload) (ru : CrawlResumePayload) :
    (encode_signature sp).length = signature_size ∧ signature_size = 112 ∧
    (encode_crawl_request rq).length = crawl_request_size ∧ crawl_request_size = 4 ∧
    (encode_crawl_response cr).length = crawl_response_size ∧
    crawl_response_size = 388 ∧
    (encode_crawl_resume ru).length = 0 := by
  refine ⟨?_, by decide, ?_, by decide, ?_, by decide, rfl⟩
  · simp [encode_signature, HASH_LENGTH, signature_size_eq]
  · simp [encode_crawl_request, crawl_request_size_eq]
  · simp [encode_crawl_response, encode_block_crawl, HASH_LENGTH, PK_LENGTH, SIG_LENGTH,
      crawl_response_size_eq]

/-- C6 counterexample: `GENESIS_ID` is not 32 zero bytes; its bytes are 0x30,
the ASCII code of the digit zero. -/
theorem claim_C6_counterexample :
    GENESIS_ID ≠ List.replicate HASH_LENGTH 0 ∧ GENESIS_ID.head? = some 48 := by
  decide

/-- C6 amended: `GENESIS_ID` is 32 bytes of 0x30 (ASCII for the character
zero, not the zero byte), `EMPTY_HASH` is 32 bytes of 0x31; they are
distinct, both have length `HASH_LENGTH`, and no byte of either is zero. -/
theorem claim_C6_amended :
    GENESIS_ID = List.replicate HASH_LENGTH 48 ∧
    EMPTY_HASH = List.replicate HASH_LENGTH 49 ∧
    GENESIS_ID ≠ EMPTY_HASH ∧
    GENESIS_ID.length = HASH_LENGTH ∧ EMPTY_HASH.length = HASH_LENGTH ∧
    (∀ b ∈ GENESIS_ID, b ≠ 0) ∧ (∀ b ∈ EMPTY_HASH, b ≠ 0) := by
  decide

/-- C7: for every Signature-sized buffer, `split_function` returns the whole
buffer as second component and a prefix whose length plus `append_size` is
the buffer length; the prefix is a strict byte-for-byte prefix. -/
theorem claim_C7_split (b : List Nat) (h : b.length = signature_size) :
    (split_function b).2 = b ∧
    (split_function b).1.length + append_size = b.length ∧
    (split_function b).1 ++ b.drop (signature_size - append_size) = b ∧
    (split_function b).1.length < b.length := by
  refine ⟨rfl, ?_, ?_, ?_⟩
  · simp [split_function, h, signature_size_eq, append_size_eq]
  · simp [split_function, h, signature_size_eq, append_size_eq]
  · simp [split_function, h, signature_size_eq, append_size_eq]

/-- Witness for C7 at a concrete 112-byte buffer. -/
theorem claim_C7_witness :
    (List.replicate 112 (7 : Nat)).length = signature_size ∧
    ((split_function (List.replicate 112 7)).2 = List.replicate 112 7 ∧
     (split_function (List.replicate 112 7)).1.length + append_size
         = (List.replicate 112 (7 : Nat)).length ∧
     (split_function (List.replicate 112 7)).1
         ++ (List.replicate 112 (7 : Nat)).drop (signature_size - append_size)
         = List.replicate 112 7 ∧
     (split_function (List.replicate 112 7)).1.length
         < (List.replicate 112 (7 : Nat)).length) :=
  ⟨by decide, claim_C7_split (List.replicate 112 7) (by decide)⟩

/-- C8 counterexample: `encode_block_requester_half` given a 73-byte public
key silently pads it (its output is identical to the one for the key with a
zero byte appended) instead of raising, and `encode_block` does not check
signature widths: a 63-byte requester signature is accepted. -/
theorem claim_C8_counterexample :
    encode_block_requester_half spEx (List.replicate 73 9) pkRespEx sigReqEx
      = encode_block_requester_half spEx (List.replicate 73 9 ++ [0]) pkRespEx sigReqEx ∧
    (encode_block spEx (List.replicate 63 9, pkReqEx) (sigRespEx, pkRespEx)).isSome
      = true := by
  exact ⟨by decide, by decide⟩

/-- C8 amended: only `encode_block` checks widths, and only of the two public
keys: it fails (assertion) exactly when a supplied public key is not
`PK_LENGTH` bytes; signature widths are never checked, and
`encode_block_requester_half` checks nothing, silently padding or truncating
every string field to its fixed width (`packBytes`). -/
theorem claim_C8_amended (p : SignaturePayload) (req res : List Nat × List Nat)
    (q : SignaturePayload) (pk1 pk2 s : List Nat) :
    (req.2.length = PK_LENGTH → res.2.length = PK_LENGTH →
      (encode_block p req res).isSome = true) ∧
    (req.2.length ≠ PK_LENGTH → encode_block p req res = none) ∧
    (res.2.length ≠ PK_LENGTH → encode_block p req res = none) ∧
    encode_block_requester_half q (packBytes PK_LENGTH pk1) pk2 s
      = encode_block_requester_half q pk1 pk2 s := by
  refine ⟨fun h1 h2 => ?_, fun h => ?_, fun h => ?_, ?_⟩
  · rw [encode_block, if_pos ⟨h1, h2⟩]; rfl
  · rw [encode_block, if_neg (by tauto)]
  · rw [encode_block, if_neg (by tauto)]
  · simp [encode_block_requester_half, packBytes_packBytes]

/-- Witness for C8: a 73-byte requester key makes `encode_block` fail. -/
theorem claim_C8_witness :
    (List.replicate 73 (9 : Nat)).length ≠ PK_LENGTH ∧
    encode_block spEx (sigReqEx, List.replicate 73 9) (sigRespEx, pkRespEx) = none :=
  ⟨by decide,
   (claim_C8_amended spEx (sigReqEx, List.replicate 73 9) (sigRespEx, pkRespEx)
     spEx pkReqEx pkRespEx sigReqEx).2.1 (by decide)⟩

/-- C9 counterexample: with a 64-byte signature and 74-byte keys, the
requester-half buffer length is 276, not
`PK_LENGTH*2 + 8 + 112 + SIG_LENGTH = 332`. -/
theorem claim_C9_counterexample :
    (encode_block_requester_half spEx pkReqEx pkRespEx sigReqEx).length
      ≠ PK_LENGTH * 2 + 8 + 112 + SIG_LENGTH := by
  decide

/-- C9 amended: the requester-half buffer length equals
`requester_half_size = 276`: two 74-byte keys, the 8 bytes of up and down,
4 native alignment padding bytes, the 52-byte requester append block and the
64-byte signature. -/
theorem claim_C9_amended (p : SignaturePayload) (pk1 pk2 s : List Nat)
    (h1 : pk1.length = PK_LENGTH) (h2 : pk2.length = PK_LENGTH)
    (h3 : s.length = SIG_LENGTH) :
    (encode_block_requester_half p pk1 pk2 s).length = requester_half_size ∧
    requester_half_size = PK_LENGTH * 2 + 8 + 4 + append_size + SIG_LENGTH := by
  constructor
  · simp [encode_block_requester_half, requester_half_size_eq, HASH_LENGTH, PK_LENGTH,
      SIG_LENGTH]
  · decide

/-- Witness for C9 at the concrete keys and signature. -/
theorem claim_C9_witness :
    pkReqEx.length = PK_LENGTH ∧ pkRespEx.length = PK_LENGTH ∧
    sigReqEx.length = SIG_LENGTH ∧
    ((encode_block_requester_half spEx pkReqEx pkRespEx sigReqEx).length
        = requester_half_size ∧
     requester_half_size = PK_LENGTH * 2 + 8 + 4 + append_size + SIG_LENGTH) :=
  ⟨by decide, by decide, by decide,
   claim_C9_amended spEx pkReqEx pkRespEx sigReqEx (by decide) (by decide) (by decide)⟩

/-- C10: for every input buffer, `split_function` returns the unmodified
input as second component; when the length is at most `append_size` the
prefix is empty; and the length invariant `len(prefix) + append_size =
len(b)` holds exactly when `len(b) ≥ append_size`. -/
theorem claim_C10_split_general (b : List Nat) :
    (split_function b).2 = b ∧
    (b.length ≤ append_size → (split_function b).1 = []) ∧
    ((split_function b).1.length + append_size = b.length ↔ append_size ≤ b.length) := by
  refine ⟨rfl, fun h => ?_, ?_⟩
  · have h0 : b.length - append_size = 0 := by omega
    simp [split_function, h0]
  · simp only [split_function, List.length_take]
    omega

/-- Witness for C10 at a 3-byte buffer, shorter than `append_size`. -/
theorem claim_C10_witness :
    ([1, 2, 3] : List Nat).length ≤ append_size ∧
    (split_function [1, 2, 3]).1 = [] ∧
    (split_function ([1, 2, 3] : List Nat)).2 = [1, 2, 3] :=
  ⟨by decide, (claim_C10_split_general [1, 2, 3]).2.1 (by decide),
   (claim_C10_split_general [1, 2, 3]).1⟩

end MultiChain
